import Mathlib

/-!
Shallow embedding of the firehose-sui console reader
(`codec/console_reader.go` and `codec/console_stats.go`).

Strings are modelled over Lean characters; the protocol is ASCII, so Go's
byte-level `line[5:]` slicing coincides with character-level `String.drop 5`
on every input considered here.  Go's `time.Now()` is modelled by a logical
clock (a natural number passed to `next` and incremented once per consumed
line); `time.Time{}` is clock value `0`.  Byte buffers are `List Nat`
with entries below 256.

The protobuf payload types (`pbsui.*`) and their decoding
(`proto.Unmarshal`), as well as the block encoder (`firecore.BlockEncoder`),
are external collaborators of the core: they are modelled as abstract
functions collected in a `Collabs` record.  The few methods of
`pbsui.CheckpointData` that the core calls but whose bodies are not part of
the repository sources under study (`GetFirehoseBlockNumber`, `AsRef`,
`GetFirehoseBlockLIBNum`, `GetFirehoseBlockID`) are modelled from the spec;
see their doc comments.
-/

set_option autoImplicit false

namespace FirehoseSui

abbrev Bytes := List Nat

/-- Field of `pbsui.Checkpoint` relevant to the core: its sequence number
(`uint64`), plus the checkpoint digest used as the block id. -/
structure Checkpoint where
  sequenceNumber : Nat
  digest : String
  deriving Repr, DecidableEq

/-- Opaque transaction payload (`pbsui.Transaction`); the core never looks
inside, so it is modelled as the raw decoded bytes. -/
structure Transaction where
  bytes : Bytes
  deriving Repr, DecidableEq

/-- Opaque object-change payload (`pbsui.TransactionObjectChange`). -/
structure TransactionObjectChange where
  bytes : Bytes
  deriving Repr, DecidableEq

/-- Opaque event payload (`pbsui.IndexedEvent`). -/
structure IndexedEvent where
  bytes : Bytes
  deriving Repr, DecidableEq

/-- Opaque display-update payload (`pbsui.StoredDisplay`). -/
structure StoredDisplay where
  bytes : Bytes
  deriving Repr, DecidableEq

/-- The block accumulator `pbsui.CheckpointData`: the fields the console
reader reads or writes.  A fresh accumulator (Go `&pbsui.CheckpointData{}`)
is the record with every field at its zero value. -/
structure CheckpointData where
  checkpoint : Option Checkpoint := none
  transactions : List Transaction := []
  objectChange : Option TransactionObjectChange := none
  events : List IndexedEvent := []
  displayUpdates : List StoredDisplay := []
  deriving Repr, DecidableEq

/-- Modelled from the spec: `GetFirehoseBlockNumber` lives in the `pb`
package, outside the sources under study.  The spec identifies the
accumulator's sequence number with the tracked block height, and
`console_reader.go:223` reads it as `activeBlock.Checkpoint.SequenceNumber`;
following the protobuf getter convention the accessor is nil-safe, returning
the zero value `0` when no checkpoint has been recorded. -/
def CheckpointData.GetFirehoseBlockNumber (cd : CheckpointData) : Nat :=
  (cd.checkpoint.map Checkpoint.sequenceNumber).getD 0

/-- Modelled from the spec: the block id is the checkpoint digest
(the spec calls the chain id "the digest of the genesis checkpoint");
nil-safe with zero value `""`. -/
def CheckpointData.GetFirehoseBlockID (cd : CheckpointData) : String :=
  (cd.checkpoint.map Checkpoint.digest).getD ""

/-- Modelled from the spec: the "last irreversible block" number carried
alongside a completed block.  Sui checkpoints are final, so the LIB number
of a block is its own number. -/
def CheckpointData.GetFirehoseBlockLIBNum (cd : CheckpointData) : Nat :=
  cd.GetFirehoseBlockNumber

/-- Lightweight reference to the most recently completed block
(`pbbstream.BlockRef{Num, Id}`); zero value is `{0, ""}`. -/
structure BlockRef where
  num : Nat := 0
  id : String := ""
  deriving Repr, DecidableEq

/-- Modelled from the spec: `AsRef` (pb package) builds the `BlockRef`
of a block from its number and id. -/
def CheckpointData.AsRef (cd : CheckpointData) : BlockRef :=
  { num := cd.GetFirehoseBlockNumber, id := cd.GetFirehoseBlockID }

/-- State of `consoleReaderStats` (`console_stats.go`).  The dmetrics
counters are external collaborators; the model records the calls the reader
makes to them: `blockRate.Inc()` bumps `blockCount`,
`transactionRate.IncBy(n)` bumps `transactionCount` by `n`, and
`blockAverageParseTime.AddElapsedTime(start)` accumulates the elapsed
logical time and the sample count. -/
structure Stats where
  lastBlock : BlockRef := {}
  blockCount : Nat := 0
  transactionCount : Nat := 0
  parseTimeTotal : Nat := 0
  parseTimeSamples : Nat := 0
  deriving Repr, DecidableEq

/-- Mutable state of `ConsoleReader`: `activeBlockStartTime`, `activeBlock`,
`chainID`, `initRead` and the stats.  The zero/initial state is the
record of default values. -/
structure ReaderState where
  activeBlockStartTime : Nat := 0
  activeBlock : Option CheckpointData := none
  chainID : String := ""
  initRead : Bool := false
  stats : Stats := {}
  deriving Repr, DecidableEq

/-- Errors returned by the reader.  Each constructor corresponds to one
`fmt.Errorf` site of `console_reader.go`, carrying that site's format
arguments; `onLine` is `lineError` (the `"%w (on line %q)"` wrapper) and
`external` stands for an error produced by the external encoder
collaborator and handed through unchanged. -/
inductive RErr where
  /-- next: "invalid log line %q, expecting at least two tokens" -/
  | invalidLogLine (line : String)
  /-- readInit: "invalid log line length: 6 or 7 fields required but found %d" -/
  | initLineLength (found : Nat)
  /-- readInit: "invalid firehose major version %q: %w" -/
  | invalidMajorVersion (raw : String)
  /-- readInit: "invalid firehose minor version %q: %w"; note the message
  interpolates `params[4]` although the failed parse was of `params[3]`. -/
  | invalidMinorVersion (raw : String)
  /-- readInit: "only able to consume firehose format with major version 0, got %d" -/
  | unsupportedMajorVersion (got : Nat)
  /-- readBlockStart: "invalid BLOCK_START line: 1 fields required but found %d" -/
  | blockStartLineLength (found : Nat)
  /-- readBlockStart: `invalid BLOCK_START "height" param: %w` -/
  | blockStartHeightParam (raw : String)
  /-- validate: "invalid log line length: 1 fields required but found %d" -/
  | accLineLength (found : Nat)
  /-- validate: "no active block in progress when reading %s" -/
  | noActiveBlock (valueType : String)
  /-- validate: "read %s in block %d: invalid base64 value: %w" -/
  | invalidBase64 (valueType : String) (blockNum : Nat)
  /-- handlers: "read %s in block %d: invalid proto: %w" -/
  | invalidProto (valueType : String) (blockNum : Nat) (msg : String)
  /-- readBlockEnd: "invalid BLOCK_END line: 1 fields required but found %d" -/
  | blockEndLineLength (found : Nat)
  /-- readBlockEnd: `invalid BLOCK_END "height" param: %w` -/
  | blockEndHeightParam (raw : String)
  /-- readBlockEnd: "no active block in progress when reading BLOCK_END" -/
  | noActiveBlockEnd
  /-- readBlockEnd: "active block's height %d does not match BLOCK_END received height %d" -/
  | blockEndMismatch (active received : Nat)
  /-- readBlockEnd: "active block height %d does not contain any transaction" -/
  | blockEndEmpty (height : Nat)
  /-- next: "received INIT line while one has already been read" -/
  | duplicateInit
  /-- lineError: "%w (on line %q)" -/
  | onLine (line : String) (e : RErr)
  /-- An error produced by an external collaborator (the block encoder). -/
  | external (msg : String)
  deriving Repr, DecidableEq

/-- A Go-level failure: either an error value returned to the caller or a
runtime panic that crashes the process. -/
inductive Failure where
  | err (e : RErr)
  | panicked (site : String)
  deriving Repr, DecidableEq

/-- Result type of the external block encoder (`pbbstream.Block`).  The
encoder itself is an arbitrary function of the `Collabs` record; this type
is merely its codomain, rich enough to let concrete encoders be injective. -/
structure BstreamBlock where
  data : CheckpointData
  libNum : Nat
  deriving Repr, DecidableEq

/-- External collaborators of the console reader: the five
`proto.Unmarshal` schema decoders and the `firecore.BlockEncoder`.  The
encoder receives the completed block and its LIB number
(`firecore.BlockEnveloppe{Block: block, LIBNum: ...}`). -/
structure Collabs where
  decodeCheckpoint : Bytes → Except String Checkpoint
  decodeTransaction : Bytes → Except String Transaction
  decodeObjChange : Bytes → Except String TransactionObjectChange
  decodeEvent : Bytes → Except String IndexedEvent
  decodeDisplay : Bytes → Except String StoredDisplay
  encode : CheckpointData → Nat → Except RErr BstreamBlock

/-- Go `strconv.ParseUint(s, 10, 64)`: a non-empty string of decimal digits
whose value fits in 64 bits; no signs, prefixes or underscores. -/
def parseUint64 (s : String) : Option Nat :=
  if s.data.isEmpty then none
  else if s.data.all Char.isDigit then
    let v := s.data.foldl (fun acc ch => acc * 10 + (ch.toNat - 48)) 0
    if v < 2 ^ 64 then some v else none
  else none

/-- Value of one character of the standard base64 alphabet. -/
def b64Val (ch : Char) : Option Nat :=
  if 'A' ≤ ch ∧ ch ≤ 'Z' then some (ch.toNat - 65)
  else if 'a' ≤ ch ∧ ch ≤ 'z' then some (ch.toNat - 97 + 26)
  else if '0' ≤ ch ∧ ch ≤ '9' then some (ch.toNat - 48 + 52)
  else if ch = '+' then some 62
  else if ch = '/' then some 63
  else none

/-- Decode base64 four-character quanta with `=` padding allowed only in
the final quantum, as Go's `base64.StdEncoding` does.  Go's decoder does
not reject non-zero unused trailing bits, and neither does this model. -/
def b64Quanta : List Char → Option Bytes
  | [] => some []
  | c1 :: c2 :: c3 :: c4 :: rest => do
    let v1 ← b64Val c1
    let v2 ← b64Val c2
    if c3 = '=' then
      if c4 = '=' ∧ rest = [] then some [v1 * 4 + v2 / 16] else none
    else do
      let v3 ← b64Val c3
      if c4 = '=' then
        if rest = [] then some [v1 * 4 + v2 / 16, (v2 % 16) * 16 + v3 / 4] else none
      else do
        let v4 ← b64Val c4
        let tail ← b64Quanta rest
        some ((v1 * 4 + v2 / 16) :: ((v2 % 16) * 16 + v3 / 4) :: ((v3 % 4) * 64 + v4) :: tail)
  | _ => none

/-- Go `base64.StdEncoding.DecodeString`: newline characters are ignored
anywhere; everything else must form well-padded quanta over the standard
alphabet.  `none` models the `CorruptInputError` case (the reader never
inspects the error's byte offset, only wraps it). -/
def base64Decode (s : String) : Option Bytes :=
  b64Quanta (s.data.filter (fun ch => ch ≠ '\n' ∧ ch ≠ '\r'))

/-- Go `strings.HasPrefix`, over the character lists of the strings (the
protocol is ASCII, so characters and bytes coincide). -/
def hasPrefix (s pre : String) : Bool :=
  pre.data.isPrefixOf s.data

/-- Go `len(s)` on an ASCII line. -/
def strLen (s : String) : Nat :=
  s.data.length

/-- Go `s[n:]` on an ASCII line (total here; the caller checks bounds and
panics separately, as the source does implicitly). -/
def strDrop (s : String) (n : Nat) : String :=
  String.mk (s.data.drop n)

/-- Helper of `splitSpace`: current accumulated field is kept reversed. -/
def splitSpaceAux : List Char → List Char → List String
  | [], acc => [String.mk acc.reverse]
  | ch :: cs, acc =>
    if ch = ' ' then String.mk acc.reverse :: splitSpaceAux cs []
    else splitSpaceAux cs (ch :: acc)

/-- Go `strings.Split(s, " ")`: split around every single space, keeping
empty fields; the empty string yields `[""]`. -/
def splitSpace (s : String) : List String :=
  splitSpaceAux s.data []

/-- Protocol marker checked by `strings.HasPrefix` (no trailing space). -/
def LogPrefix : String := "FIRE"

def LogInit : String := "INIT"
def LogCheckpoint : String := "CHECKPOINT"
def LogBlockStart : String := "BLOCK_START"
def LogTrx : String := "TRX"
def LogObjChange : String := "OBJ_CHANGE"
def LogEvent : String := "EVT"
def LogDisplayUpdate : String := "DSP_UPDATE"
def LogBlockEnd : String := "BLOCK_END"

/-- Fields logged by a successful `readInit`; Go keeps only `chainID` and
`initRead` in the reader state, the rest is observable solely through the
log call, which this record captures. -/
structure InitInfo where
  clientName : String
  clientVersion : String
  fork : String
  firehoseMajor : Nat
  firehoseMinor : Nat
  chainID : String
  deriving Repr, DecidableEq

/-- `readInit` (console_reader.go:164).  `validateVariableChunk(params, 6, 7)`
is inlined as the length disjunction.  NOTE: the source parses the minor
version from `params[3]` again (console_reader.go:178) while its error
message interpolates `params[4]`; the model reproduces both faithfully. -/
def readInit (params : List String) (s : ReaderState) :
    Except RErr (InitInfo × ReaderState) :=
  if ¬ (params.length = 6 ∨ params.length = 7) then
    Except.error (RErr.initLineLength params.length)
  else
    match parseUint64 (params.getD 3 "") with
    | none => Except.error (RErr.invalidMajorVersion (params.getD 3 ""))
    | some firehoseMajor =>
      match parseUint64 (params.getD 3 "") with
      | none => Except.error (RErr.invalidMinorVersion (params.getD 4 ""))
      | some firehoseMinor =>
        if firehoseMajor ≠ 0 then
          Except.error (RErr.unsupportedMajorVersion firehoseMajor)
        else
          let chainIDString := if params.length = 6 then params.getD 5 "" else params.getD 6 ""
          Except.ok
            ({ clientName := params.getD 0 "", clientVersion := params.getD 1 "",
               fork := params.getD 2 "", firehoseMajor := firehoseMajor,
               firehoseMinor := firehoseMinor, chainID := chainIDString },
             { s with chainID := chainIDString, initRead := true })

/-- `readBlockStart` (console_reader.go:211).  The parsed height is used
only inside the anomaly log; the fresh accumulator is `&pbsui.CheckpointData{}`.
When a block is already active, the log call evaluates
`r.activeBlock.Checkpoint.SequenceNumber` (console_reader.go:223), a direct
field access that panics with a nil-pointer dereference when the active
accumulator has no checkpoint. -/
def readBlockStart (clock : Nat) (s : ReaderState) (params : List String) :
    Except Failure ReaderState :=
  if params.length ≠ 1 then
    Except.error (Failure.err (RErr.blockStartLineLength params.length))
  else
    match parseUint64 (params.getD 0 "") with
    | none => Except.error (Failure.err (RErr.blockStartHeightParam (params.getD 0 "")))
    | some _height =>
      match s.activeBlock with
      | some ab =>
        match ab.checkpoint with
        | none => Except.error (Failure.panicked
            "readBlockStart: nil pointer dereference of activeBlock.Checkpoint in anomaly log")
        | some _ =>
          Except.ok { s with activeBlockStartTime := clock, activeBlock := some {} }
      | none =>
        Except.ok { s with activeBlockStartTime := clock, activeBlock := some {} }

/-- `validate` (console_reader.go:234): single-parameter check, active-block
check, base64 decode.  Go reads `r.activeBlock` from the receiver after a
successful `validate`; the explicit-state rendering returns the active
accumulator alongside the decoded bytes. -/
def validate (s : ReaderState) (params : List String) (valueType : String) :
    Except RErr (CheckpointData × Bytes) :=
  if params.length ≠ 1 then Except.error (RErr.accLineLength params.length)
  else
    match s.activeBlock with
    | none => Except.error (RErr.noActiveBlock valueType)
    | some ab =>
      match base64Decode (params.getD 0 "") with
      | none => Except.error (RErr.invalidBase64 valueType ab.GetFirehoseBlockNumber)
      | some out => Except.ok (ab, out)

/-- `readCheckpointOverview` (console_reader.go:253): decodes and
overwrites the checkpoint summary field. -/
def readCheckpointOverview (c : Collabs) (s : ReaderState) (params : List String) :
    Except RErr ReaderState :=
  match validate s params "CHECKPOINT" with
  | Except.error e => Except.error e
  | Except.ok (ab, out) =>
    match c.decodeCheckpoint out with
    | Except.error msg =>
      Except.error (RErr.invalidProto "CHECKPOINT" ab.GetFirehoseBlockNumber msg)
    | Except.ok checkpoint =>
      Except.ok { s with activeBlock := some { ab with checkpoint := some checkpoint } }

/-- `readTransactionBlock` (console_reader.go:271): decodes and appends to
the ordered transaction sequence. -/
def readTransactionBlock (c : Collabs) (s : ReaderState) (params : List String) :
    Except RErr ReaderState :=
  match validate s params "TRX" with
  | Except.error e => Except.error e
  | Except.ok (ab, out) =>
    match c.decodeTransaction out with
    | Except.error msg =>
      Except.error (RErr.invalidProto "TRX" ab.GetFirehoseBlockNumber msg)
    | Except.ok transaction =>
      Except.ok
        { s with activeBlock := some { ab with transactions := ab.transactions ++ [transaction] } }

/-- `readTransactionObjectChange` (console_reader.go:289): decodes and
overwrites the single object-change slot. -/
def readTransactionObjectChange (c : Collabs) (s : ReaderState) (params : List String) :
    Except RErr ReaderState :=
  match validate s params "OBJ_CHANGE" with
  | Except.error e => Except.error e
  | Except.ok (ab, out) =>
    match c.decodeObjChange out with
    | Except.error msg =>
      Except.error (RErr.invalidProto "OBJ_CHANGE" ab.GetFirehoseBlockNumber msg)
    | Except.ok oc =>
      Except.ok { s with activeBlock := some { ab with objectChange := some oc } }

/-- `readEvent` (console_reader.go:307): decodes and appends to the ordered
event sequence. -/
def readEvent (c : Collabs) (s : ReaderState) (params : List String) :
    Except RErr ReaderState :=
  match validate s params "EVT" with
  | Except.error e => Except.error e
  | Except.ok (ab, out) =>
    match c.decodeEvent out with
    | Except.error msg =>
      Except.error (RErr.invalidProto "EVT" ab.GetFirehoseBlockNumber msg)
    | Except.ok event =>
      Except.ok { s with activeBlock := some { ab with events := ab.events ++ [event] } }

/-- `readDisplayUpdate` (console_reader.go:325): decodes and appends to the
ordered display-update sequence. -/
def readDisplayUpdate (c : Collabs) (s : ReaderState) (params : List String) :
    Except RErr ReaderState :=
  match validate s params "DSP_UPDATE" with
  | Except.error e => Except.error e
  | Except.ok (ab, out) =>
    match c.decodeDisplay out with
    | Except.error msg =>
      Except.error (RErr.invalidProto "DSP_UPDATE" ab.GetFirehoseBlockNumber msg)
    | Except.ok du =>
      Except.ok
        { s with activeBlock := some { ab with displayUpdates := ab.displayUpdates ++ [du] } }

/-- `readBlockEnd` (console_reader.go:343).  Always returns the post-call
reader state alongside the outcome, mirroring the receiver mutation: the
stats update, `resetActiveBlock` and only then the encoder call, whose
error is returned unchanged (Go `return nil, err`) with the state already
cleared and counted. -/
def readBlockEnd (c : Collabs) (clock : Nat) (s : ReaderState) (params : List String) :
    ReaderState × Except RErr BstreamBlock :=
  if params.length ≠ 1 then (s, Except.error (RErr.blockEndLineLength params.length))
  else
    match parseUint64 (params.getD 0 "") with
    | none => (s, Except.error (RErr.blockEndHeightParam (params.getD 0 "")))
    | some height =>
      match s.activeBlock with
      | none => (s, Except.error RErr.noActiveBlockEnd)
      | some ab =>
        if ab.GetFirehoseBlockNumber ≠ height then
          (s, Except.error (RErr.blockEndMismatch ab.GetFirehoseBlockNumber height))
        else if ab.transactions.length = 0 then
          (s, Except.error (RErr.blockEndEmpty ab.GetFirehoseBlockNumber))
        else
          let s1 : ReaderState :=
            { s with
              stats :=
                { s.stats with
                  blockCount := s.stats.blockCount + 1,
                  transactionCount := s.stats.transactionCount + ab.transactions.length,
                  parseTimeTotal := s.stats.parseTimeTotal + (clock - s.activeBlockStartTime),
                  parseTimeSamples := s.stats.parseTimeSamples + 1,
                  lastBlock := ab.AsRef },
              activeBlock := none,
              activeBlockStartTime := 0 }
          (s1, c.encode ab ab.GetFirehoseBlockLIBNum)

/-- Outcome of one `next` call: a completed encoded block, an error return,
the `io.EOF` end-of-stream signal, or a Go runtime panic.  `block` and
`fail` carry the reader state after the call and the lines not yet
consumed. -/
inductive NextOut where
  | block (b : BstreamBlock) (s : ReaderState) (rest : List String)
  | fail (e : RErr) (s : ReaderState) (rest : List String)
  | eof (s : ReaderState)
  | panicked (site : String) (s : ReaderState)
  deriving Repr, DecidableEq

/-- `next` (console_reader.go:93): the line loop.  `clock` is the logical
time at which the head line is processed; each consumed line advances it by
one.  `line[len(LogPrefix)+1:]` slices five bytes in, which panics exactly
when the line is the bare four-byte marker; note the fifth byte is skipped
without being checked to be a space. -/
def next (c : Collabs) : Nat → ReaderState → List String → NextOut
  | _, s, [] => NextOut.eof s
  | clock, s, line :: rest =>
    if hasPrefix line LogPrefix then
      if strLen line < 5 then
        NextOut.panicked "next: slice bounds out of range in line[5:]" s
      else
        let tokens := splitSpace (strDrop line 5)
        if tokens.length < 2 then NextOut.fail (RErr.invalidLogLine line) s rest
        else if s.initRead = false then
          if tokens.getD 0 "" = LogInit then
            match readInit (tokens.drop 1) s with
            | Except.error e => NextOut.fail (RErr.onLine line e) s rest
            | Except.ok (_, s1) => next c (clock + 1) s1 rest
          else
            next c (clock + 1) s rest
        else if tokens.getD 0 "" = LogCheckpoint then
          match readCheckpointOverview c s (tokens.drop 1) with
          | Except.error e => NextOut.fail (RErr.onLine line e) s rest
          | Except.ok s1 => next c (clock + 1) s1 rest
        else if tokens.getD 0 "" = LogTrx then
          match readTransactionBlock c s (tokens.drop 1) with
          | Except.error e => NextOut.fail (RErr.onLine line e) s rest
          | Except.ok s1 => next c (clock + 1) s1 rest
        else if tokens.getD 0 "" = LogObjChange then
          match readTransactionObjectChange c s (tokens.drop 1) with
          | Except.error e => NextOut.fail (RErr.onLine line e) s rest
          | Except.ok s1 => next c (clock + 1) s1 rest
        else if tokens.getD 0 "" = LogEvent then
          match readEvent c s (tokens.drop 1) with
          | Except.error e => NextOut.fail (RErr.onLine line e) s rest
          | Except.ok s1 => next c (clock + 1) s1 rest
        else if tokens.getD 0 "" = LogDisplayUpdate then
          match readDisplayUpdate c s (tokens.drop 1) with
          | Except.error e => NextOut.fail (RErr.onLine line e) s rest
          | Except.ok s1 => next c (clock + 1) s1 rest
        else if tokens.getD 0 "" = LogBlockStart then
          match readBlockStart clock s (tokens.drop 1) with
          | Except.error (Failure.err e) => NextOut.fail (RErr.onLine line e) s rest
          | Except.error (Failure.panicked site) => NextOut.panicked site s
          | Except.ok s1 => next c (clock + 1) s1 rest
        else if tokens.getD 0 "" = LogBlockEnd then
          match readBlockEnd c clock s (tokens.drop 1) with
          | (s2, Except.error e) => NextOut.fail (RErr.onLine line e) s2 rest
          | (s2, Except.ok b) => NextOut.block b s2 rest
        else if tokens.getD 0 "" = LogInit then
          NextOut.fail (RErr.onLine line RErr.duplicateInit) s rest
        else
          next c (clock + 1) s rest
    else
      next c (clock + 1) s rest

/-- `ReadBlock` (console_reader.go:68): delegates to `next`; its nil-block
guard is unreachable in the model because the encoder returns a value. -/
def ReadBlock (c : Collabs) (clock : Nat) (s : ReaderState) (lines : List String) : NextOut :=
  next c clock s lines

/-- Concrete collaborators for witnesses and counterexamples: every schema
decoder succeeds and keeps the raw bytes (the checkpoint decoder reads the
sequence number from the head byte), and the encoder is the injective
packaging of the block with its LIB number. -/
def idCollabs : Collabs where
  decodeCheckpoint := fun bs => Except.ok { sequenceNumber := bs.headD 0, digest := "d" }
  decodeTransaction := fun bs => Except.ok { bytes := bs }
  decodeObjChange := fun bs => Except.ok { bytes := bs }
  decodeEvent := fun bs => Except.ok { bytes := bs }
  decodeDisplay := fun bs => Except.ok { bytes := bs }
  encode := fun cd lib => Except.ok { data := cd, libNum := lib }

/-- Collaborators identical to `idCollabs` except that the encoder always
fails with an external error. -/
def failEncCollabs : Collabs :=
  { idCollabs with encode := fun _ _ => Except.error (RErr.external "encoder failed") }

/-- The post-handshake state with no active block. -/
def postInit : ReaderState := { initRead := true }

/-!
Theorems settling the claims.
-/

/-- C3, counterexample to the claim as stated: with the line source
exhausted while a block is mid-assembly (an active accumulator holding one
transaction), `next` returns the clean `io.EOF` termination signal, not an
error. -/
theorem c3_counterexample :
    next idCollabs 0
      { initRead := true, activeBlock := some { transactions := [{ bytes := [0] }] } }
      [] =
    NextOut.eof
      { initRead := true, activeBlock := some { transactions := [{ bytes := [0] }] } } := by
  rfl

/-- C3, amended: when the lines channel closes, `next` returns the clean
end-of-stream signal unconditionally, whether or not an accumulator is
active; an incomplete block is silently dropped, never reported as an
error. -/
theorem c3_eof_always_clean (c : Collabs) (clock : Nat) (s : ReaderState) :
    next c clock s [] = NextOut.eof s := rfl

/-- C6, counterexample to the claim as stated: the line "FIREX" lacks the
marker "FIRE followed by a single space", yet the parser does not advance
past it: the prefix check is on the four bytes "FIRE" alone, so the line is
sliced and tokenized to a single empty token and fails with the line-format
error. -/
theorem c6_counterexample :
    next idCollabs 0 postInit ["FIREX"] =
      NextOut.fail (RErr.invalidLogLine "FIREX") postInit [] := by
  rfl

/-- C6, amended: the skip test is the four-byte prefix "FIRE" with no space
required; lines lacking that prefix are skipped with no error and no state
change; lines carrying it have their fifth byte skipped unchecked, the
remainder is split on spaces, and fewer than two tokens fails with the
line-format error — except the bare four-byte line "FIRE" itself, whose
`line[5:]` slice panics instead of erroring. -/
theorem c6_tokenizer
    (c : Collabs) (clock : Nat) (s : ReaderState) (line : String) (rest : List String) :
    ( hasPrefix line LogPrefix = false →
      next c clock s (line :: rest) = next c (clock + 1) s rest)
    ∧ ( hasPrefix line LogPrefix = true → 5 ≤ strLen line →
      (splitSpace (strDrop line 5)).length < 2 →
      next c clock s (line :: rest) = NextOut.fail (RErr.invalidLogLine line) s rest)
    ∧ next c clock s ("FIRE" :: rest) =
        NextOut.panicked "next: slice bounds out of range in line[5:]" s := by
  refine ⟨fun h => ?_, fun h1 h2 h3 => ?_, ?_⟩
  · simp [next, h]
  · simp [next, h1, h3, Nat.not_lt.mpr h2]
  · have h1 : hasPrefix "FIRE" LogPrefix = true := by decide
    have h2 : strLen "FIRE" < 5 := by decide
    simp [next, h1, h2]

/-- C6, witness: instantiates the skip clause at the non-marker line
"hello" and the error clause at the marker-only line "FIRE " (whose single
empty token is too few). -/
theorem c6_witness :
    next idCollabs 0 postInit ["hello"] = next idCollabs 1 postInit []
    ∧ next idCollabs 0 postInit ["FIRE "] =
        NextOut.fail (RErr.invalidLogLine "FIRE ") postInit [] := by
  constructor
  · exact (c6_tokenizer idCollabs 0 postInit "hello" []).1 (by decide)
  · exact (c6_tokenizer idCollabs 0 postInit "FIRE " []).2.1 (by decide) (by decide) (by decide)

/-- C2, behavior of the code at the failing inputs: an INIT line whose
minor-version field (position 5, index 4) is the non-numeric "abc"
nevertheless succeeds — the minor version is parsed from `params[3]`, the
major-version slot — and an INIT line whose minor-version field is the
numeric "5" succeeds with minor version 0 (the major's value), not 5. -/
theorem c2_minor_read_from_major_slot :
    readInit ["sui-node", "1.0.0", "mainline", "0", "abc", "chain-1"] {} =
      Except.ok
        ({ clientName := "sui-node", clientVersion := "1.0.0", fork := "mainline",
           firehoseMajor := 0, firehoseMinor := 0, chainID := "chain-1" },
         { chainID := "chain-1", initRead := true })
    ∧ readInit ["sui-node", "1.0.0", "mainline", "0", "5", "chain-1"] {} =
      Except.ok
        ({ clientName := "sui-node", clientVersion := "1.0.0", fork := "mainline",
           firehoseMajor := 0, firehoseMinor := 0, chainID := "chain-1" },
         { chainID := "chain-1", initRead := true }) := by
  exact ⟨rfl, rfl⟩

/-- C4, behavior at the failing input and the claim's content in the
recoverable case.  First conjunct: a BLOCK_START arriving while a block is
active whose checkpoint was never recorded crashes — the anomaly log
dereferences the nil `Checkpoint` pointer — instead of logging and
continuing.  Second conjunct: whenever the active accumulator does carry a
checkpoint, BLOCK_START is not an error: it allocates a fresh accumulator
with no transactions (none of the previous accumulator's data survives) and
records the start timestamp; the state holds at most one accumulator by
construction of `ReaderState`. -/
theorem c4_block_start_replacement :
    (next idCollabs 0 { initRead := true, activeBlock := some {} } ["FIRE BLOCK_START 7"] =
      NextOut.panicked
        "readBlockStart: nil pointer dereference of activeBlock.Checkpoint in anomaly log"
        { initRead := true, activeBlock := some {} })
    ∧ (∀ (clock : Nat) (s : ReaderState) (ab : CheckpointData) (hstr : String) (v : Nat),
        s.activeBlock = some ab → ab.checkpoint.isSome = true →
        parseUint64 hstr = some v →
        readBlockStart clock s [hstr] =
          Except.ok { s with activeBlockStartTime := clock, activeBlock := some {} }) := by
  constructor
  · rfl
  · intro clock s ab hstr v hab hcp hv
    obtain ⟨cp, hcp⟩ := Option.isSome_iff_exists.mp hcp
    simp [readBlockStart, hab, hcp, hv]

/-- C4, witness: the replacement clause applied at a concrete state whose
active accumulator has a checkpoint at height 3 and one transaction; none
of that data survives into the fresh accumulator. -/
theorem c4_witness :
    readBlockStart 9
      { initRead := true,
        activeBlock := some { checkpoint := some { sequenceNumber := 3, digest := "d3" },
                              transactions := [{ bytes := [0] }] } }
      ["7"] =
    Except.ok
      { initRead := true, activeBlockStartTime := 9, activeBlock := some {} } := by
  exact c4_block_start_replacement.2 9
    { initRead := true,
      activeBlock := some { checkpoint := some { sequenceNumber := 3, digest := "d3" },
                            transactions := [{ bytes := [0] }] } }
    { checkpoint := some { sequenceNumber := 3, digest := "d3" },
      transactions := [{ bytes := [0] }] }
    "7" 7 rfl rfl rfl

/-- C1, counterexample to the claim as stated: from the post-handshake
state with no active block, the command sequence BLOCK_START(10),
TRX(base64 of T1), TRX(base64 of T2), BLOCK_END(10) does not complete a
block: BLOCK_START never stores the height 10 on the accumulator, whose
sequence number therefore stays 0, and BLOCK_END(10) fails with the
sequence-mismatch error (0 versus 10), wrapped with the offending line. -/
theorem c1_counterexample :
    next idCollabs 0 postInit
      ["FIRE BLOCK_START 10", "FIRE TRX AA==", "FIRE TRX AQ==", "FIRE BLOCK_END 10"] =
    NextOut.fail (RErr.onLine "FIRE BLOCK_END 10" (RErr.blockEndMismatch 0 10))
      { initRead := true,
        activeBlock := some { transactions := [{ bytes := [0] }, { bytes := [1] }] } }
      [] := by
  rfl

/-- C1, amended: BLOCK_START(h) records the start timestamp and allocates a
fresh accumulator, but does not set its sequence number to h — the fresh
accumulator's number is 0 whatever h was — and the round trip completes
only when the BLOCK_END height matches that number: the sequence
BLOCK_START(0), TRX(base64 of T1), TRX(base64 of T2), BLOCK_END(0) yields
exactly one completed block whose transaction sequence is [T1, T2] in
original order, after which the stream is cleanly exhausted. -/
theorem c1_round_trip_at_height_zero :
    (∀ (clock : Nat) (s : ReaderState) (hstr : String) (v : Nat),
      parseUint64 hstr = some v → s.activeBlock = none →
      readBlockStart clock s [hstr] =
        Except.ok { s with activeBlockStartTime := clock, activeBlock := some {} }
      ∧ CheckpointData.GetFirehoseBlockNumber {} = 0)
    ∧ next idCollabs 0 postInit
        ["FIRE BLOCK_START 0", "FIRE TRX AA==", "FIRE TRX AQ==", "FIRE BLOCK_END 0"] =
      NextOut.block
        { data := { transactions := [{ bytes := [0] }, { bytes := [1] }] }, libNum := 0 }
        { initRead := true,
          stats := { blockCount := 1, transactionCount := 2,
                     parseTimeTotal := 3, parseTimeSamples := 1 } }
        []
    ∧ next idCollabs 4
        { initRead := true,
          stats := { blockCount := 1, transactionCount := 2,
                     parseTimeTotal := 3, parseTimeSamples := 1 } }
        [] =
      NextOut.eof
        { initRead := true,
          stats := { blockCount := 1, transactionCount := 2,
                     parseTimeTotal := 3, parseTimeSamples := 1 } } := by
  refine ⟨fun clock s hstr v hv hab => ⟨?_, rfl⟩, rfl, rfl⟩
  simp [readBlockStart, hab, hv]

/-- C1, witness: the BLOCK_START clause applied at the post-handshake state
with the concrete height string "10". -/
theorem c1_witness :
    readBlockStart 0 postInit ["10"] =
      Except.ok { postInit with activeBlockStartTime := 0, activeBlock := some {} }
    ∧ CheckpointData.GetFirehoseBlockNumber {} = 0 := by
  exact (c1_round_trip_at_height_zero.1 0 postInit "10" 10 rfl rfl)

/-- C8: before a valid handshake (`initRead = false`), every line that
tokenizes into a command other than INIT is skipped without error, without
any state change and without producing a block: processing it is the same
as processing the remaining lines from the unchanged state, which in
particular stays pre-init. -/
theorem c8_preinit_skips_non_init
    (c : Collabs) (clock : Nat) (s : ReaderState) (line : String) (rest : List String)
    (hpre : s.initRead = false)
    (hpfx : hasPrefix line LogPrefix = true)
    (hlen : 5 ≤ strLen line)
    (htok : 2 ≤ (splitSpace (strDrop line 5)).length)
    (hcmd : (splitSpace (strDrop line 5)).getD 0 "" ≠ LogInit) :
    next c clock s (line :: rest) = next c (clock + 1) s rest := by
  have hcmd' : (splitSpace (strDrop line 5))[0]?.getD "" ≠ LogInit := by
    simpa [List.getD] using hcmd
  simp [next, hpre, hpfx, hcmd', Nat.not_lt.mpr hlen, Nat.not_lt.mpr htok]

/-- C8, witness: a BLOCK_START command arriving in the initial pre-init
state is skipped; the stream then ends cleanly with the state untouched. -/
theorem c8_witness :
    next idCollabs 0 {} ["FIRE BLOCK_START 5"] = next idCollabs 1 {} [] := by
  exact c8_preinit_skips_non_init idCollabs 0 {} "FIRE BLOCK_START 5" []
    rfl (by decide) (by decide) (by decide) (by decide)

/-- C10: the handshake line is accepted only with exactly 6 or 7
parameters, any other count failing with the line-format error; a parsed
major version different from 0 always fails with the protocol-version
error, whatever string sits in the minor-version slot; and on success the
chain identifier is read from index 5 of the 6-parameter form and index 6
of the 7-parameter form, disambiguated purely by the count. -/
theorem c10_handshake_validation (params : List String) (s : ReaderState) :
    (params.length ≠ 6 → params.length ≠ 7 →
      readInit params s = Except.error (RErr.initLineLength params.length))
    ∧ (∀ p0 p1 p2 p3 p4 p5 m, parseUint64 p3 = some m → m ≠ 0 →
      readInit [p0, p1, p2, p3, p4, p5] s =
        Except.error (RErr.unsupportedMajorVersion m))
    ∧ (∀ p0 p1 p2 p3 p4 p5 p6 m, parseUint64 p3 = some m → m ≠ 0 →
      readInit [p0, p1, p2, p3, p4, p5, p6] s =
        Except.error (RErr.unsupportedMajorVersion m))
    ∧ (∀ p0 p1 p2 p3 p4 p5, parseUint64 p3 = some 0 →
      readInit [p0, p1, p2, p3, p4, p5] s =
        Except.ok
          ({ clientName := p0, clientVersion := p1, fork := p2,
             firehoseMajor := 0, firehoseMinor := 0, chainID := p5 },
           { s with chainID := p5, initRead := true }))
    ∧ (∀ p0 p1 p2 p3 p4 p5 p6, parseUint64 p3 = some 0 →
      readInit [p0, p1, p2, p3, p4, p5, p6] s =
        Except.ok
          ({ clientName := p0, clientVersion := p1, fork := p2,
             firehoseMajor := 0, firehoseMinor := 0, chainID := p6 },
           { s with chainID := p6, initRead := true })) := by
  refine ⟨fun h6 h7 => ?_, fun p0 p1 p2 p3 p4 p5 m hm hm0 => ?_,
    fun p0 p1 p2 p3 p4 p5 p6 m hm hm0 => ?_,
    fun p0 p1 p2 p3 p4 p5 hp => ?_, fun p0 p1 p2 p3 p4 p5 p6 hp => ?_⟩
  · simp [readInit, h6, h7]
  · simp [readInit, hm, hm0]
  · simp [readInit, hm, hm0]
  · simp [readInit, hp]
  · simp [readInit, hp]

/-- C10, witness: the length-failure clause at a 3-parameter line, the
major-version clause at major "3" with numeric minor "9", and both
success forms with their chain ids at positions 6 and 7 respectively. -/
theorem c10_witness :
    readInit ["a", "b", "c"] {} = Except.error (RErr.initLineLength 3)
    ∧ readInit ["a", "b", "c", "3", "9", "id6"] {} =
        Except.error (RErr.unsupportedMajorVersion 3)
    ∧ readInit ["a", "b", "c", "0", "9", "id6"] {} =
        Except.ok
          ({ clientName := "a", clientVersion := "b", fork := "c",
             firehoseMajor := 0, firehoseMinor := 0, chainID := "id6" },
           { chainID := "id6", initRead := true })
    ∧ readInit ["a", "b", "c", "0", "9", "x", "id7"] {} =
        Except.ok
          ({ clientName := "a", clientVersion := "b", fork := "c",
             firehoseMajor := 0, firehoseMinor := 0, chainID := "id7" },
           { chainID := "id7", initRead := true }) := by
  refine ⟨?_, ?_, ?_, ?_⟩
  · exact (c10_handshake_validation ["a", "b", "c"] {}).1 (by decide) (by decide)
  · exact (c10_handshake_validation ["a", "b", "c", "3", "9", "id6"] {}).2.1
      "a" "b" "c" "3" "9" "id6" 3 rfl (by decide)
  · exact (c10_handshake_validation ["a", "b", "c", "0", "9", "id6"] {}).2.2.2.1
      "a" "b" "c" "0" "9" "id6" rfl
  · exact (c10_handshake_validation ["a", "b", "c", "0", "9", "x", "id7"] {}).2.2.2.2
      "a" "b" "c" "0" "9" "x" "id7" rfl

/-- C9: for each accumulation command with its single parameter `p`:
with no active accumulator it fails with the no-active-block error naming
the command; with an active accumulator but `p` not valid base64 it fails
with the base64-decode error naming the field and the in-progress block's
height; and when both the base64 decode and the schema decode succeed, the
payload is appended to the transaction, event or display-update sequence,
or overwrites the checkpoint or object-change slot. -/
theorem c9_accumulation_commands (c : Collabs) (s : ReaderState) (p : String) :
    (s.activeBlock = none →
      readCheckpointOverview c s [p] = Except.error (RErr.noActiveBlock "CHECKPOINT")
      ∧ readTransactionBlock c s [p] = Except.error (RErr.noActiveBlock "TRX")
      ∧ readTransactionObjectChange c s [p] = Except.error (RErr.noActiveBlock "OBJ_CHANGE")
      ∧ readEvent c s [p] = Except.error (RErr.noActiveBlock "EVT")
      ∧ readDisplayUpdate c s [p] = Except.error (RErr.noActiveBlock "DSP_UPDATE"))
    ∧ (∀ ab, s.activeBlock = some ab → base64Decode p = none →
      readCheckpointOverview c s [p] =
        Except.error (RErr.invalidBase64 "CHECKPOINT" ab.GetFirehoseBlockNumber)
      ∧ readTransactionBlock c s [p] =
        Except.error (RErr.invalidBase64 "TRX" ab.GetFirehoseBlockNumber)
      ∧ readTransactionObjectChange c s [p] =
        Except.error (RErr.invalidBase64 "OBJ_CHANGE" ab.GetFirehoseBlockNumber)
      ∧ readEvent c s [p] =
        Except.error (RErr.invalidBase64 "EVT" ab.GetFirehoseBlockNumber)
      ∧ readDisplayUpdate c s [p] =
        Except.error (RErr.invalidBase64 "DSP_UPDATE" ab.GetFirehoseBlockNumber))
    ∧ (∀ ab bs, s.activeBlock = some ab → base64Decode p = some bs →
      (∀ cp, c.decodeCheckpoint bs = Except.ok cp →
        readCheckpointOverview c s [p] =
          Except.ok { s with activeBlock := some { ab with checkpoint := some cp } })
      ∧ (∀ t, c.decodeTransaction bs = Except.ok t →
        readTransactionBlock c s [p] =
          Except.ok
            { s with activeBlock := some { ab with transactions := ab.transactions ++ [t] } })
      ∧ (∀ oc, c.decodeObjChange bs = Except.ok oc →
        readTransactionObjectChange c s [p] =
          Except.ok { s with activeBlock := some { ab with objectChange := some oc } })
      ∧ (∀ ev, c.decodeEvent bs = Except.ok ev →
        readEvent c s [p] =
          Except.ok { s with activeBlock := some { ab with events := ab.events ++ [ev] } })
      ∧ (∀ du, c.decodeDisplay bs = Except.ok du →
        readDisplayUpdate c s [p] =
          Except.ok
            { s with
              activeBlock := some { ab with displayUpdates := ab.displayUpdates ++ [du] } })) := by
  refine ⟨fun hab => ?_, fun ab hab hb => ?_, fun ab bs hab hb => ?_⟩
  · exact ⟨by simp [readCheckpointOverview, validate, hab],
      by simp [readTransactionBlock, validate, hab],
      by simp [readTransactionObjectChange, validate, hab],
      by simp [readEvent, validate, hab],
      by simp [readDisplayUpdate, validate, hab]⟩
  · exact ⟨by simp [readCheckpointOverview, validate, hab, hb],
      by simp [readTransactionBlock, validate, hab, hb],
      by simp [readTransactionObjectChange, validate, hab, hb],
      by simp [readEvent, validate, hab, hb],
      by simp [readDisplayUpdate, validate, hab, hb]⟩
  · exact ⟨fun cp hcp => by simp [readCheckpointOverview, validate, hab, hb, hcp],
      fun t ht => by simp [readTransactionBlock, validate, hab, hb, ht],
      fun oc hoc => by simp [readTransactionObjectChange, validate, hab, hb, hoc],
      fun ev hev => by simp [readEvent, validate, hab, hb, hev],
      fun du hdu => by simp [readDisplayUpdate, validate, hab, hb, hdu]⟩

/-- C9, witness: with one transaction already accumulated under a
checkpoint at height 4, a no-active-block TRX failure from the awaiting
state, a base64 failure of "!!" naming TRX and height 4, and a successful
TRX append of the decoded payload of "AQ==" behind the existing one. -/
theorem c9_witness :
    readTransactionBlock idCollabs postInit ["AQ=="] =
      Except.error (RErr.noActiveBlock "TRX")
    ∧ readTransactionBlock idCollabs
        { initRead := true,
          activeBlock := some { checkpoint := some { sequenceNumber := 4, digest := "d4" },
                                transactions := [{ bytes := [0] }] } }
        ["!!"] =
      Except.error (RErr.invalidBase64 "TRX" 4)
    ∧ readTransactionBlock idCollabs
        { initRead := true,
          activeBlock := some { checkpoint := some { sequenceNumber := 4, digest := "d4" },
                                transactions := [{ bytes := [0] }] } }
        ["AQ=="] =
      Except.ok
        { initRead := true,
          activeBlock := some { checkpoint := some { sequenceNumber := 4, digest := "d4" },
                                transactions := [{ bytes := [0] }, { bytes := [1] }] } } := by
  refine ⟨?_, ?_, ?_⟩
  · exact ((c9_accumulation_commands idCollabs postInit "AQ==").1 rfl).2.1
  · exact ((c9_accumulation_commands idCollabs
      { initRead := true,
        activeBlock := some { checkpoint := some { sequenceNumber := 4, digest := "d4" },
                              transactions := [{ bytes := [0] }] } } "!!").2.1
      { checkpoint := some { sequenceNumber := 4, digest := "d4" },
        transactions := [{ bytes := [0] }] } rfl (by decide)).2.1
  · exact (((c9_accumulation_commands idCollabs
      { initRead := true,
        activeBlock := some { checkpoint := some { sequenceNumber := 4, digest := "d4" },
                              transactions := [{ bytes := [0] }] } } "AQ==").2.2
      { checkpoint := some { sequenceNumber := 4, digest := "d4" },
        transactions := [{ bytes := [0] }] } [1] rfl (by decide)).2.1
      { bytes := [1] } rfl)

/-- C5: given BLOCK_END(h) (a single parameter parsing to h) and an
encoder that succeeds, the call produces a completed block iff an active
accumulator exists, its tracked height equals h and its transaction
sequence is non-empty; the three failure shapes are respectively the
no-active-block, sequence-mismatch and empty-block errors, each leaving the
state untouched; and any failure of readBlockEnd surfaced through the line
loop is wrapped with the offending raw line text. -/
theorem c5_block_end_characterization
    (c : Collabs) (clock : Nat) (s : ReaderState) (hs : String) (h : Nat)
    (hparse : parseUint64 hs = some h)
    (henc : ∀ cd n, ∃ b, c.encode cd n = Except.ok b) :
    ((∃ b, (readBlockEnd c clock s [hs]).2 = Except.ok b) ↔
      ∃ ab, s.activeBlock = some ab ∧ ab.GetFirehoseBlockNumber = h ∧ ab.transactions ≠ [])
    ∧ (s.activeBlock = none →
      readBlockEnd c clock s [hs] = (s, Except.error RErr.noActiveBlockEnd))
    ∧ (∀ ab, s.activeBlock = some ab → ab.GetFirehoseBlockNumber ≠ h →
      readBlockEnd c clock s [hs] =
        (s, Except.error (RErr.blockEndMismatch ab.GetFirehoseBlockNumber h)))
    ∧ (∀ ab, s.activeBlock = some ab → ab.GetFirehoseBlockNumber = h →
      ab.transactions = [] →
      readBlockEnd c clock s [hs] = (s, Except.error (RErr.blockEndEmpty h)))
    ∧ (∀ line rest e s2, hasPrefix line LogPrefix = true → 5 ≤ strLen line →
      splitSpace (strDrop line 5) = [LogBlockEnd, hs] → s.initRead = true →
      readBlockEnd c clock s [hs] = (s2, Except.error e) →
      next c clock s (line :: rest) = NextOut.fail (RErr.onLine line e) s2 rest) := by
  refine ⟨⟨fun hok => ?_, fun hex => ?_⟩,
    fun hab => by simp [readBlockEnd, hparse, hab],
    fun ab hab hne => by simp [readBlockEnd, hparse, hab, hne],
    fun ab hab heq hemp => by simp [readBlockEnd, hparse, hab, heq, hemp],
    fun line rest e s2 h1 h2 h3 h4 h5 => ?_⟩
  · obtain ⟨b, hb⟩ := hok
    rcases habs : s.activeBlock with _ | ab
    · simp [readBlockEnd, hparse, habs] at hb
    · by_cases hnum : ab.GetFirehoseBlockNumber = h
      · by_cases htr : ab.transactions = []
        · simp [readBlockEnd, hparse, habs, hnum, htr] at hb
        · exact ⟨ab, rfl, hnum, htr⟩
      · simp [readBlockEnd, hparse, habs, hnum] at hb
  · obtain ⟨ab, hab, hnum, htr⟩ := hex
    obtain ⟨b, hb⟩ := henc ab ab.GetFirehoseBlockLIBNum
    have hb' : c.encode ab h = Except.ok b := by
      rwa [CheckpointData.GetFirehoseBlockLIBNum, hnum] at hb
    exact ⟨b, by simp [readBlockEnd, hparse, hab, hnum, htr, hb',
      CheckpointData.GetFirehoseBlockLIBNum]⟩
  · simp [next, h1, h3, h4, h5, Nat.not_lt.mpr h2,
      LogBlockEnd, LogCheckpoint, LogTrx, LogObjChange, LogEvent, LogDisplayUpdate,
      LogBlockStart, LogInit]

/-- C5, witness: instantiates the characterization at height string "7";
from a state whose accumulator sits at height 5 with one transaction, the
mismatch clause gives the sequence-mismatch failure, and the wrapping
clause surfaces it from the line loop wrapped with the raw line. -/
theorem c5_witness :
    readBlockEnd idCollabs 0
      { initRead := true,
        activeBlock := some { checkpoint := some { sequenceNumber := 5, digest := "d5" },
                              transactions := [{ bytes := [0] }] } }
      ["7"] =
      ({ initRead := true,
         activeBlock := some { checkpoint := some { sequenceNumber := 5, digest := "d5" },
                               transactions := [{ bytes := [0] }] } },
       Except.error (RErr.blockEndMismatch 5 7))
    ∧ next idCollabs 0
        { initRead := true,
          activeBlock := some { checkpoint := some { sequenceNumber := 5, digest := "d5" },
                                transactions := [{ bytes := [0] }] } }
        ["FIRE BLOCK_END 7"] =
      NextOut.fail (RErr.onLine "FIRE BLOCK_END 7" (RErr.blockEndMismatch 5 7))
        { initRead := true,
          activeBlock := some { checkpoint := some { sequenceNumber := 5, digest := "d5" },
                                transactions := [{ bytes := [0] }] } }
        [] := by
  constructor
  · exact (c5_block_end_characterization idCollabs 0
      { initRead := true,
        activeBlock := some { checkpoint := some { sequenceNumber := 5, digest := "d5" },
                              transactions := [{ bytes := [0] }] } }
      "7" 7 rfl (fun cd n => ⟨{ data := cd, libNum := n }, rfl⟩)).2.2.1
      { checkpoint := some { sequenceNumber := 5, digest := "d5" },
        transactions := [{ bytes := [0] }] }
      rfl (by decide)
  · exact (c5_block_end_characterization idCollabs 0
      { initRead := true,
        activeBlock := some { checkpoint := some { sequenceNumber := 5, digest := "d5" },
                              transactions := [{ bytes := [0] }] } }
      "7" 7 rfl (fun cd n => ⟨{ data := cd, libNum := n }, rfl⟩)).2.2.2.2
      "FIRE BLOCK_END 7" [] (RErr.blockEndMismatch 5 7) _
      (by decide) (by decide) (by decide) rfl rfl

/-- C7, counterexample to the claim as stated: on a BLOCK_END whose
validations pass but whose encoder fails, the error surfaced from the line
loop is NOT the encoder error unchanged — it is wrapped with the offending
line text by `lineError`, exactly like the validation failures
(console_reader.go:139 wraps every error returned by readBlockEnd). -/
theorem c7_counterexample :
    next failEncCollabs 3
      { initRead := true, activeBlockStartTime := 1,
        activeBlock := some { checkpoint := some { sequenceNumber := 7, digest := "d7" },
                              transactions := [{ bytes := [0] }] } }
      ["FIRE BLOCK_END 7"] =
      NextOut.fail (RErr.onLine "FIRE BLOCK_END 7" (RErr.external "encoder failed"))
        { initRead := true,
          stats := { lastBlock := { num := 7, id := "d7" }, blockCount := 1,
                     transactionCount := 1, parseTimeTotal := 2, parseTimeSamples := 1 } }
        []
    ∧ NextOut.fail (RErr.onLine "FIRE BLOCK_END 7" (RErr.external "encoder failed"))
        { initRead := true,
          stats := { lastBlock := { num := 7, id := "d7" }, blockCount := 1,
                     transactionCount := 1, parseTimeTotal := 2, parseTimeSamples := 1 } }
        [] ≠
      NextOut.fail (RErr.external "encoder failed")
        { initRead := true,
          stats := { lastBlock := { num := 7, id := "d7" }, blockCount := 1,
                     transactionCount := 1, parseTimeTotal := 2, parseTimeSamples := 1 } }
        [] := by
  exact ⟨rfl, by decide⟩

/-- C7, amended: on a BLOCK_END whose validations all pass, the returned
state has the stats updated (block count, transaction count by accumulated
length, elapsed logical time since BLOCK_START, last-block reference) and
the accumulator cleared, and the encoder's result is then passed through as
the outcome — so an encoder error reaches the caller with the accumulator
already cleared and the stats already incremented, but wrapped with the
offending raw line text by the line loop, not unchanged. -/
theorem c7_cleanup_precedes_encoder
    (c : Collabs) (clock : Nat) (s : ReaderState) (hs : String) (h : Nat)
    (ab : CheckpointData)
    (hparse : parseUint64 hs = some h)
    (hab : s.activeBlock = some ab)
    (hnum : ab.GetFirehoseBlockNumber = h)
    (htr : ab.transactions ≠ []) :
    readBlockEnd c clock s [hs] =
      ({ s with
          stats :=
            { s.stats with
              blockCount := s.stats.blockCount + 1,
              transactionCount := s.stats.transactionCount + ab.transactions.length,
              parseTimeTotal := s.stats.parseTimeTotal + (clock - s.activeBlockStartTime),
              parseTimeSamples := s.stats.parseTimeSamples + 1,
              lastBlock := ab.AsRef },
          activeBlock := none,
          activeBlockStartTime := 0 },
       c.encode ab ab.GetFirehoseBlockLIBNum)
    ∧ (∀ line rest e, hasPrefix line LogPrefix = true → 5 ≤ strLen line →
      splitSpace (strDrop line 5) = [LogBlockEnd, hs] → s.initRead = true →
      c.encode ab ab.GetFirehoseBlockLIBNum = Except.error e →
      next c clock s (line :: rest) =
        NextOut.fail (RErr.onLine line e)
          { s with
            stats :=
              { s.stats with
                blockCount := s.stats.blockCount + 1,
                transactionCount := s.stats.transactionCount + ab.transactions.length,
                parseTimeTotal := s.stats.parseTimeTotal + (clock - s.activeBlockStartTime),
                parseTimeSamples := s.stats.parseTimeSamples + 1,
                lastBlock := ab.AsRef },
            activeBlock := none,
            activeBlockStartTime := 0 }
          rest) := by
  have hmain : readBlockEnd c clock s [hs] =
      ({ s with
          stats :=
            { s.stats with
              blockCount := s.stats.blockCount + 1,
              transactionCount := s.stats.transactionCount + ab.transactions.length,
              parseTimeTotal := s.stats.parseTimeTotal + (clock - s.activeBlockStartTime),
              parseTimeSamples := s.stats.parseTimeSamples + 1,
              lastBlock := ab.AsRef },
          activeBlock := none,
          activeBlockStartTime := 0 },
       c.encode ab ab.GetFirehoseBlockLIBNum) := by
    simp [readBlockEnd, hparse, hab, hnum, htr]
  refine ⟨hmain, fun line rest e h1 h2 h3 h4 h5 => ?_⟩
  simp [next, h1, h3, h4, Nat.not_lt.mpr h2, hmain, h5,
    LogBlockEnd, LogCheckpoint, LogTrx, LogObjChange, LogEvent, LogDisplayUpdate,
    LogBlockStart, LogInit]

/-- C7, witness: the cleanup-then-encode equation and the wrapped surfaced
error, at the failing encoder and the concrete height-7 ready state. -/
theorem c7_witness :
    readBlockEnd failEncCollabs 3
      { initRead := true, activeBlockStartTime := 1,
        activeBlock := some { checkpoint := some { sequenceNumber := 7, digest := "d7" },
                              transactions := [{ bytes := [0] }] } }
      ["7"] =
      ({ initRead := true,
         stats := { lastBlock := { num := 7, id := "d7" }, blockCount := 1,
                    transactionCount := 1, parseTimeTotal := 2, parseTimeSamples := 1 } },
       Except.error (RErr.external "encoder failed")) := by
  have := (c7_cleanup_precedes_encoder failEncCollabs 3
    { initRead := true, activeBlockStartTime := 1,
      activeBlock := some { checkpoint := some { sequenceNumber := 7, digest := "d7" },
                            transactions := [{ bytes := [0] }] } }
    "7" 7
    { checkpoint := some { sequenceNumber := 7, digest := "d7" },
      transactions := [{ bytes := [0] }] }
    rfl rfl rfl (by decide)).1
  simpa using this

end FirehoseSui
